import Mathlib

/-!
Verification development for the dataworks automation gateway
(`src/main.py`): a rule-based task classifier, a dispatch table with
an orchestrating `/run` endpoint, and a sandboxed `/read` endpoint.

Strings are modelled as Lean `String`s (lists of characters); the only
character operations the source uses on task text are ASCII lowercasing
(`str.lower`) and substring containment (`x in y`), both embedded below.
-/

/-- Python `str.lower` on a single ASCII character: uppercase letters are
shifted down by 32, every other character is unchanged. -/
def lowerChar (c : Char) : Char :=
  if 65 ≤ c.toNat ∧ c.toNat ≤ 90 then Char.ofNat (c.toNat + 32) else c

/-- Python `str.lower` applied to a whole string (ASCII fragment). -/
def pyLower (s : String) : String := ⟨s.data.map lowerChar⟩

/-- `leadsList pre l` is true when `pre` is an initial segment of `l`
(character-by-character comparison, as Python `str.startswith`). -/
def leadsList : List Char → List Char → Bool
  | [], _ => true
  | _ :: _, [] => false
  | a :: as, b :: bs => a == b && leadsList as bs

/-- `occursIn n l` is true when `n` occurs contiguously inside `l`:
Python's substring test `n in l`. -/
def occursIn (n : List Char) : List Char → Bool
  | [] => leadsList n []
  | c :: cs => leadsList n (c :: cs) || occursIn n cs

/-- Python `needle in hay` on strings. -/
def inStr (needle hay : String) : Bool := occursIn needle.data hay.data

/-- A FastAPI `HTTPException`, carrying the HTTP status code and detail
message (`raise HTTPException(status_code=…, detail=…)`). -/
structure HTTPExc where
  status_code : Nat
  detail : String
deriving DecidableEq, Repr

deriving instance DecidableEq for Except

/-! The eighteen classification rules of `classify_task`
(src/main.py lines 87–122), one definition per `if`/`elif` condition,
evaluated on the lowercased task text. Rule 3 keeps Python's operator
precedence: `a or b and c` parses as `a or (b and c)`. -/

def rule1 (t : String) : Bool := inStr "datagen.py" t || inStr "install uv" t

def rule2 (t : String) : Bool := inStr "format" t && inStr "prettier" t

def rule3 (t : String) : Bool :=
  inStr "wednesday" t || (inStr "count" t && inStr "dates.txt" t)

def rule4 (t : String) : Bool := inStr "sort contacts" t

def rule5 (t : String) : Bool := inStr "recent" t && inStr ".log" t

def rule6 (t : String) : Bool := inStr "markdown" t && inStr "index" t

def rule7 (t : String) : Bool := inStr "email.txt" t && inStr "sender" t

def rule8 (t : String) : Bool := inStr "credit card" t

def rule9 (t : String) : Bool := inStr "comments" t && inStr "similar" t

def rule10 (t : String) : Bool := inStr "ticket-sales.db" t || inStr "gold" t

def rule11 (t : String) : Bool := inStr "fetch data" t || inStr "api" t

def rule12 (t : String) : Bool := inStr "clone" t && inStr "git" t

def rule13 (t : String) : Bool := inStr "sql query" t

def rule14 (t : String) : Bool := inStr "scrape" t || inStr "website" t

def rule15 (t : String) : Bool :=
  inStr "resize image" t || inStr "compress image" t

def rule16 (t : String) : Bool := inStr "transcribe" t && inStr "mp3" t

def rule17 (t : String) : Bool :=
  inStr "convert markdown" t && inStr "html" t

def rule18 (t : String) : Bool := inStr "filter csv" t

/-- The `if`/`elif` chain of `classify_task`, evaluated on the already
lowercased text `t` (the source's `task_lower`): the first matching rule
yields its category string, and no match raises `HTTPException(400,
"Task not recognized")`, modelled as `Except.error`. -/
def classifyLower (t : String) : Except HTTPExc String :=
  if rule1 t then .ok "A1"
  else if rule2 t then .ok "A2"
  else if rule3 t then .ok "A3"
  else if rule4 t then .ok "A4"
  else if rule5 t then .ok "A5"
  else if rule6 t then .ok "A6"
  else if rule7 t then .ok "A7"
  else if rule8 t then .ok "A8"
  else if rule9 t then .ok "A9"
  else if rule10 t then .ok "A10"
  else if rule11 t then .ok "B3"
  else if rule12 t then .ok "B4"
  else if rule13 t then .ok "B5"
  else if rule14 t then .ok "B6"
  else if rule15 t then .ok "B7"
  else if rule16 t then .ok "B8"
  else if rule17 t then .ok "B9"
  else if rule18 t then .ok "B10"
  else .error ⟨400, "Task not recognized"⟩

/-- `classify_task` (src/main.py lines 81–124): lowercase the task text
once, then run the rule chain. -/
def classify_task (task : String) : Except HTTPExc String :=
  classifyLower (pyLower task)

/-- True when none of the eighteen rules matches the (already lowercased)
text — the `else` branch of `classify_task`. -/
def noneMatch (t : String) : Bool :=
  !(rule1 t || rule2 t || rule3 t || rule4 t || rule5 t || rule6 t ||
    rule7 t || rule8 t || rule9 t || rule10 t || rule11 t || rule12 t ||
    rule13 t || rule14 t || rule15 t || rule16 t || rule17 t || rule18 t)

/-! Path handling of the `/read` endpoint. The source guards reads with
`os.path.abspath(path).startswith(os.path.abspath("/data")) or
 os.path.abspath(path).startswith(os.path.abspath("./data"))`
(src/main.py line 142). `os.path.abspath` on POSIX is
`posixpath.normpath(posixpath.join(os.getcwd(), path))`; both are
embedded below, parameterised by the current working directory. -/

/-- Python `path.split("/")`: split a character list at every slash,
keeping empty components. -/
def splitSlash : List Char → List (List Char)
  | [] => [[]]
  | c :: rest =>
    let r := splitSlash rest
    if c = '/' then [] :: r
    else
      match r with
      | [] => [[c]]
      | g :: gs => (c :: g) :: gs

/-- Python `"/".join(comps)`. -/
def joinSlash : List (List Char) → List Char
  | [] => []
  | [x] => x
  | x :: xs => x ++ '/' :: joinSlash xs

/-- The component loop of `posixpath.normpath`: drop empty and `"."`
components; a `".."` component is kept when the path is relative with no
components accumulated yet or the last kept component is itself `".."`,
and otherwise pops the last kept component when one exists. -/
def normComps (initialSlashes : Nat) :
    List (List Char) → List (List Char) → List (List Char)
  | newComps, [] => newComps
  | newComps, comp :: rest =>
    if comp = [] ∨ comp = ['.'] then
      normComps initialSlashes newComps rest
    else if comp ≠ ['.', '.'] ∨ (initialSlashes = 0 ∧ newComps = [])
        ∨ newComps.getLast? = some ['.', '.'] then
      normComps initialSlashes (newComps ++ [comp]) rest
    else if newComps ≠ [] then
      normComps initialSlashes newComps.dropLast rest
    else
      normComps initialSlashes newComps rest

/-- `posixpath.normpath`: collapse slashes, resolve `"."` and `".."`
segments; the empty path normalizes to `"."`, and exactly two leading
slashes are preserved (POSIX). -/
def normpath (p : List Char) : List Char :=
  if p = [] then ['.']
  else
    let initialSlashes : Nat :=
      if leadsList ['/'] p then
        if leadsList ['/', '/'] p && !(leadsList ['/', '/', '/'] p) then 2
        else 1
      else 0
    let res := List.replicate initialSlashes '/' ++
      joinSlash (normComps initialSlashes [] (splitSlash p))
    if res = [] then ['.'] else res

/-- `posixpath.isabs`: the path starts with a slash. -/
def isAbs (p : List Char) : Bool := leadsList ['/'] p

/-- `posixpath.join` for two arguments. -/
def joinPath (a b : List Char) : List Char :=
  if isAbs b then b
  else if a = [] ∨ a.getLast? = some '/' then a ++ b
  else a ++ '/' :: b

/-- `os.path.abspath` relative to a working directory `cwd`:
`normpath(join(cwd, path))`, where an absolute `path` ignores `cwd`. -/
def abspath (cwd p : List Char) : List Char :=
  if isAbs p then normpath p else normpath (joinPath cwd p)

/-- The sandbox guard of `read_file` (src/main.py line 142):
`os.path.abspath(path)` must start, as a string, with
`os.path.abspath("/data")` or with `os.path.abspath("./data")`. -/
def sandbox_ok (cwd path : String) : Bool :=
  leadsList (abspath cwd.data "/data".data) (abspath cwd.data path.data) ||
  leadsList (abspath cwd.data "./data".data) (abspath cwd.data path.data)

/-- The filesystem visible to the endpoint, abstracted: whether a path
exists (`os.path.exists`) and the result of reading it as UTF-8 text
(`open(path).read()`), either the content or an I/O failure message. -/
structure FS where
  path_exists : String → Bool
  read_text : String → Except String String

/-- Detail string of the sandbox-violation response. -/
def sandboxDetail : String := "Access to files outside /data is forbidden"

/-- `read_file` (src/main.py lines 139–151): reject with 400 when the
sandbox guard fails, then with 404 when the path does not exist, then
read the whole file, converting an I/O failure to a 500. -/
def read_file (fs : FS) (cwd path : String) : Except HTTPExc String :=
  if !(sandbox_ok cwd path) then .error ⟨400, sandboxDetail⟩
  else if !(fs.path_exists path) then .error ⟨404, "File not found"⟩
  else
    match fs.read_text path with
    | .ok content => .ok content
    | .error msg => .error ⟨500, msg⟩

/-- Stated from the spec's words, for comparison with the source's
guard: a normalized path `p` lies underneath directory `root` when it is
`root` itself or begins with `root` followed by a path separator. -/
def liesUnder (root p : List Char) : Bool :=
  p == root || leadsList (root ++ ['/']) p

/-- The path contains a `".."` segment (between slashes). -/
def hasDotDotSeg (p : String) : Bool :=
  (splitSlash p.data).contains ['.', '.']

/-! The `/run` orchestrator. The task handlers live in `tasksA.py` /
`tasksB.py` and are opaque capabilities: each is invoked with no
arguments and either returns a payload or raises. A handler's behaviour
on the current request is abstracted as a `HandlerOutcome`; the payload
(a Python dict) is opaque to the orchestrator and modelled as a value it
merely passes through. -/

/-- What invoking one handler does on this request: return a payload,
raise a FastAPI `HTTPException`, or raise any other exception whose
`str(e)` is `msg`. -/
inductive HandlerOutcome where
  | ok (result : String)
  | httpError (e : HTTPExc)
  | exn (msg : String)
deriving DecidableEq, Repr

/-- The behaviour, on the current request, of the eighteen handlers
registered in `task_mapping`. -/
structure Handlers where
  hA1 : HandlerOutcome
  hA2 : HandlerOutcome
  hA3 : HandlerOutcome
  hA4 : HandlerOutcome
  hA5 : HandlerOutcome
  hA6 : HandlerOutcome
  hA7 : HandlerOutcome
  hA8 : HandlerOutcome
  hA9 : HandlerOutcome
  hA10 : HandlerOutcome
  hB3 : HandlerOutcome
  hB4 : HandlerOutcome
  hB5 : HandlerOutcome
  hB6 : HandlerOutcome
  hB7 : HandlerOutcome
  hB8 : HandlerOutcome
  hB9 : HandlerOutcome
  hB10 : HandlerOutcome
deriving DecidableEq, Repr

/-- `task_mapping` (src/main.py lines 60–79): the dictionary from
category key to handler, in source order. -/
def task_mapping (hs : Handlers) : List (String × HandlerOutcome) :=
  [("A1", hs.hA1), ("A2", hs.hA2), ("A3", hs.hA3), ("A4", hs.hA4),
   ("A5", hs.hA5), ("A6", hs.hA6), ("A7", hs.hA7), ("A8", hs.hA8),
   ("A9", hs.hA9), ("A10", hs.hA10), ("B3", hs.hB3), ("B4", hs.hB4),
   ("B5", hs.hB5), ("B6", hs.hB6), ("B7", hs.hB7), ("B8", hs.hB8),
   ("B9", hs.hB9), ("B10", hs.hB10)]

/-- The keys of `task_mapping`. -/
def mappingKeys : List String :=
  ["A1", "A2", "A3", "A4", "A5", "A6", "A7", "A8", "A9", "A10",
   "B3", "B4", "B5", "B6", "B7", "B8", "B9", "B10"]

/-- `str(KeyError(c))` — the message of the exception a missing
dictionary key would raise, the key repr-quoted. -/
def keyErrMsg (c : String) : String :=
  (Char.ofNat 39).toString ++ c ++ (Char.ofNat 39).toString

/-- The response of the `/run` endpoint: either the success envelope
`{"status": "success", "task": c, "result": r}` or an error response
with a status code and detail. -/
inductive RunResult where
  | success (task : String) (result : String)
  | error (e : HTTPExc)
deriving DecidableEq, Repr

/-- `run_task` (src/main.py lines 126–137): classify the task, look the
category up in `task_mapping`, invoke the handler and wrap its payload
in the success envelope. An `HTTPException` raised anywhere inside the
`try` block (classification failure, or a handler that raises one) is
re-raised unchanged; any other exception — a `KeyError` from the lookup
or an arbitrary handler failure — becomes `HTTPException(500, str(e))`. -/
def run_task (hs : Handlers) (task : String) : RunResult :=
  match classify_task task with
  | .error he => .error he
  | .ok c =>
    match (task_mapping hs).lookup c with
    | none => .error ⟨500, keyErrMsg c⟩
    | some (.ok r) => .success c r
    | some (.httpError e) => .error e
    | some (.exn msg) => .error ⟨500, msg⟩

/-- Handlers that all succeed with a fixed payload; used for concrete
evaluations. -/
def allOkHandlers : Handlers :=
  ⟨.ok "r1", .ok "r2", .ok "r3", .ok "r4", .ok "r5", .ok "r6", .ok "r7",
   .ok "r8", .ok "r9", .ok "r10", .ok "r11", .ok "r12", .ok "r13",
   .ok "r14", .ok "r15", .ok "r16", .ok "r17", .ok "r18"⟩

/-- Handlers all succeeding except A1, which raises
`HTTPException(404, "nope")`. -/
def handlers404 : Handlers := { allOkHandlers with hA1 := .httpError ⟨404, "nope"⟩ }

/-- A filesystem holding the two demonstration files of the sandbox
analysis: an absolute path outside `/data` and a relative path under
the working directory's `data` subdirectory. -/
def demoFS : FS :=
  ⟨fun p => p == "/database/x" || p == "data/notes.txt",
   fun p =>
     if p == "/database/x" then .ok "db-secret"
     else if p == "data/notes.txt" then .ok "rel-notes"
     else .error "io failure"⟩

/-- A filesystem holding only the traversal path used against the
sandbox guard. -/
def escapeFS : FS :=
  ⟨fun p => p == "/data/../database/secret",
   fun p =>
     if p == "/data/../database/secret" then .ok "top-secret"
     else .error "io failure"⟩

/-- A filesystem on which nothing exists and every read fails. -/
def emptyFS : FS := ⟨fun _ => false, fun _ => .error "io failure"⟩

/-- A filesystem holding exactly one file inside `/data`. -/
def oneFileFS : FS :=
  ⟨fun p => p == "/data/notes.txt",
   fun p =>
     if p == "/data/notes.txt" then .ok "stored bytes" else .error "io failure"⟩

/-! Helper lemmas shared by the claim theorems. -/

/-- The rule chain can only answer a key of `task_mapping`. -/
lemma classifyLower_ok_mem (t c : String) (h : classifyLower t = .ok c) :
    c ∈ mappingKeys := by
  unfold classifyLower at h
  by_cases h1 : rule1 t = true
  · rw [if_pos h1] at h; injection h with h; subst h; decide
  rw [if_neg h1] at h
  by_cases h2 : rule2 t = true
  · rw [if_pos h2] at h; injection h with h; subst h; decide
  rw [if_neg h2] at h
  by_cases h3 : rule3 t = true
  · rw [if_pos h3] at h; injection h with h; subst h; decide
  rw [if_neg h3] at h
  by_cases h4 : rule4 t = true
  · rw [if_pos h4] at h; injection h with h; subst h; decide
  rw [if_neg h4] at h
  by_cases h5 : rule5 t = true
  · rw [if_pos h5] at h; injection h with h; subst h; decide
  rw [if_neg h5] at h
  by_cases h6 : rule6 t = true
  · rw [if_pos h6] at h; injection h with h; subst h; decide
  rw [if_neg h6] at h
  by_cases h7 : rule7 t = true
  · rw [if_pos h7] at h; injection h with h; subst h; decide
  rw [if_neg h7] at h
  by_cases h8 : rule8 t = true
  · rw [if_pos h8] at h; injection h with h; subst h; decide
  rw [if_neg h8] at h
  by_cases h9 : rule9 t = true
  · rw [if_pos h9] at h; injection h with h; subst h; decide
  rw [if_neg h9] at h
  by_cases h10 : rule10 t = true
  · rw [if_pos h10] at h; injection h with h; subst h; decide
  rw [if_neg h10] at h
  by_cases h11 : rule11 t = true
  · rw [if_pos h11] at h; injection h with h; subst h; decide
  rw [if_neg h11] at h
  by_cases h12 : rule12 t = true
  · rw [if_pos h12] at h; injection h with h; subst h; decide
  rw [if_neg h12] at h
  by_cases h13 : rule13 t = true
  · rw [if_pos h13] at h; injection h with h; subst h; decide
  rw [if_neg h13] at h
  by_cases h14 : rule14 t = true
  · rw [if_pos h14] at h; injection h with h; subst h; decide
  rw [if_neg h14] at h
  by_cases h15 : rule15 t = true
  · rw [if_pos h15] at h; injection h with h; subst h; decide
  rw [if_neg h15] at h
  by_cases h16 : rule16 t = true
  · rw [if_pos h16] at h; injection h with h; subst h; decide
  rw [if_neg h16] at h
  by_cases h17 : rule17 t = true
  · rw [if_pos h17] at h; injection h with h; subst h; decide
  rw [if_neg h17] at h
  by_cases h18 : rule18 t = true
  · rw [if_pos h18] at h; injection h with h; subst h; decide
  rw [if_neg h18] at h
  exact Except.noConfusion h

/-- When no rule matches, the chain returns the 400 error. -/
lemma classifyLower_of_noneMatch (t : String) (h : noneMatch t = true) :
    classifyLower t = .error ⟨400, "Task not recognized"⟩ := by
  unfold noneMatch at h
  simp only [Bool.not_eq_true', Bool.or_eq_false_iff] at h
  obtain ⟨⟨⟨⟨⟨⟨⟨⟨⟨⟨⟨⟨⟨⟨⟨⟨⟨h1, h2⟩, h3⟩, h4⟩, h5⟩, h6⟩, h7⟩, h8⟩, h9⟩,
    h10⟩, h11⟩, h12⟩, h13⟩, h14⟩, h15⟩, h16⟩, h17⟩, h18⟩ := h
  unfold classifyLower
  simp [h1, h2, h3, h4, h5, h6, h7, h8, h9, h10, h11, h12, h13, h14,
    h15, h16, h17, h18]

/-- A chain answer of B5 means rule 13 fired, so rule 11 — checked
earlier — did not match. -/
lemma rule11_false_of_B5 (t : String) (h : classifyLower t = .ok "B5") :
    rule11 t = false := by
  unfold classifyLower at h
  by_cases h1 : rule1 t = true
  · rw [if_pos h1] at h; exact absurd h (by decide)
  rw [if_neg h1] at h
  by_cases h2 : rule2 t = true
  · rw [if_pos h2] at h; exact absurd h (by decide)
  rw [if_neg h2] at h
  by_cases h3 : rule3 t = true
  · rw [if_pos h3] at h; exact absurd h (by decide)
  rw [if_neg h3] at h
  by_cases h4 : rule4 t = true
  · rw [if_pos h4] at h; exact absurd h (by decide)
  rw [if_neg h4] at h
  by_cases h5 : rule5 t = true
  · rw [if_pos h5] at h; exact absurd h (by decide)
  rw [if_neg h5] at h
  by_cases h6 : rule6 t = true
  · rw [if_pos h6] at h; exact absurd h (by decide)
  rw [if_neg h6] at h
  by_cases h7 : rule7 t = true
  · rw [if_pos h7] at h; exact absurd h (by decide)
  rw [if_neg h7] at h
  by_cases h8 : rule8 t = true
  · rw [if_pos h8] at h; exact absurd h (by decide)
  rw [if_neg h8] at h
  by_cases h9 : rule9 t = true
  · rw [if_pos h9] at h; exact absurd h (by decide)
  rw [if_neg h9] at h
  by_cases h10 : rule10 t = true
  · rw [if_pos h10] at h; exact absurd h (by decide)
  rw [if_neg h10] at h
  cases hb : rule11 t
  · rfl
  · rw [if_pos hb] at h
    exact absurd h (by decide)

/-- A text containing "api" satisfies rule 11. -/
lemma rule11_of_api (t : String) (h : inStr "api" t = true) :
    rule11 t = true := by
  unfold rule11
  rw [h]
  simp

/-- C1: evaluation of `read_file` at the failing input
`"/data/../database/secret"` (working directory `/app`): the path has
`..` segments, its absolute normalized form `/database/secret` does not
lie underneath `/data`, yet the sandbox guard accepts it and the read
proceeds — the endpoint does not reject with the 400 sandbox error. -/
theorem C1_code_eval :
    hasDotDotSeg "/data/../database/secret" = true ∧
    abspath "/app".data "/data/../database/secret".data =
      "/database/secret".data ∧
    liesUnder "/data".data
      (abspath "/app".data "/data/../database/secret".data) = false ∧
    sandbox_ok "/app" "/data/../database/secret" = true ∧
    read_file escapeFS "/app" "/data/../database/secret" = .ok "top-secret" := by
  decide

/-- C2: the sandbox test is a plain string-prefix comparison:
`/database/x` (absolute form `/database/x`, not inside the `/data`
directory) passes the guard and is served rather than rejected with
400; and the relative path `data/notes.txt`, resolving to
`/app/data/notes.txt` under the working directory, is accepted as a
second root. -/
theorem C2_prefix_check_escape :
    sandbox_ok "/app" "/database/x" = true ∧
    liesUnder "/data".data (abspath "/app".data "/database/x".data) = false ∧
    read_file demoFS "/app" "/database/x" = .ok "db-secret" ∧
    sandbox_ok "/app" "data/notes.txt" = true ∧
    abspath "/app".data "data/notes.txt".data = "/app/data/notes.txt".data ∧
    liesUnder "/data".data (abspath "/app".data "data/notes.txt".data) = false ∧
    read_file demoFS "/app" "data/notes.txt" = .ok "rel-notes" := by
  decide

/-- C3: each of the eighteen rules, triggered by a text containing only
its own trigger substrings (both alternatives for OR rules), classifies
to exactly its category; "count" alone matches nothing, and matching is
case-insensitive. -/
theorem C3_each_rule_classifies :
    classify_task "datagen.py" = .ok "A1" ∧
    classify_task "install uv" = .ok "A1" ∧
    classify_task "format prettier" = .ok "A2" ∧
    classify_task "wednesday" = .ok "A3" ∧
    classify_task "count dates.txt" = .ok "A3" ∧
    classify_task "count" = .error ⟨400, "Task not recognized"⟩ ∧
    classify_task "sort contacts" = .ok "A4" ∧
    classify_task "recent .log" = .ok "A5" ∧
    classify_task "markdown index" = .ok "A6" ∧
    classify_task "email.txt sender" = .ok "A7" ∧
    classify_task "credit card" = .ok "A8" ∧
    classify_task "comments similar" = .ok "A9" ∧
    classify_task "ticket-sales.db" = .ok "A10" ∧
    classify_task "gold" = .ok "A10" ∧
    classify_task "fetch data" = .ok "B3" ∧
    classify_task "api" = .ok "B3" ∧
    classify_task "clone git" = .ok "B4" ∧
    classify_task "sql query" = .ok "B5" ∧
    classify_task "scrape" = .ok "B6" ∧
    classify_task "website" = .ok "B6" ∧
    classify_task "resize image" = .ok "B7" ∧
    classify_task "compress image" = .ok "B7" ∧
    classify_task "transcribe mp3" = .ok "B8" ∧
    classify_task "convert markdown html" = .ok "B9" ∧
    classify_task "filter csv" = .ok "B10" ∧
    classify_task "WEDNESDAY" = .ok "A3" ∧
    classify_task "Filter CSV" = .ok "B10" := by
  decide

/-- C4 counterexample: the text "datagen.py sql query api" contains
both "sql query" and "api" but classifies to A1 (rule 1 fires first),
not to B3 as the claim states for every such text. -/
theorem C4_counterexample :
    inStr "sql query" (pyLower "datagen.py sql query api") = true ∧
    inStr "api" (pyLower "datagen.py sql query api") = true ∧
    classify_task "datagen.py sql query api" = .ok "A1" ∧
    classify_task "datagen.py sql query api" ≠ .ok "B3" := by
  decide

/-- C4 amended: a text containing both "sql query" and "api" never
classifies to B5 (rule 11 preempts rule 13), and classifies to exactly
B3 whenever none of the ten earlier rules matches. -/
theorem C4_order_amended (task : String)
    (hq : inStr "sql query" (pyLower task) = true)
    (ha : inStr "api" (pyLower task) = true) :
    classify_task task ≠ .ok "B5" ∧
    (rule1 (pyLower task) = false → rule2 (pyLower task) = false →
     rule3 (pyLower task) = false → rule4 (pyLower task) = false →
     rule5 (pyLower task) = false → rule6 (pyLower task) = false →
     rule7 (pyLower task) = false → rule8 (pyLower task) = false →
     rule9 (pyLower task) = false → rule10 (pyLower task) = false →
     classify_task task = .ok "B3") := by
  have h11 : rule11 (pyLower task) = true := rule11_of_api _ ha
  constructor
  · intro hb5
    have hf := rule11_false_of_B5 (pyLower task) hb5
    rw [h11] at hf
    exact Bool.noConfusion hf
  · intro h1 h2 h3 h4 h5 h6 h7 h8 h9 h10
    unfold classify_task classifyLower
    simp [h1, h2, h3, h4, h5, h6, h7, h8, h9, h10, h11]

/-- C4 amended, witnessed at "sql query api". -/
theorem C4_amended_witness :
    inStr "sql query" (pyLower "sql query api") = true ∧
    classify_task "sql query api" ≠ .ok "B5" ∧
    classify_task "sql query api" = .ok "B3" :=
  ⟨by decide,
   (C4_order_amended "sql query api" (by decide) (by decide)).1,
   (C4_order_amended "sql query api" (by decide) (by decide)).2
     (by decide) (by decide) (by decide) (by decide) (by decide)
     (by decide) (by decide) (by decide) (by decide) (by decide)⟩

/-- C5: a task text whose lowercased form satisfies none of the
eighteen rule predicates makes `classify_task` raise the 400
`HTTPException` with detail "Task not recognized", and `run_task`
propagates exactly that response, for any handler behaviour. -/
theorem C5_unmatched_400 (hs : Handlers) (task : String)
    (h : noneMatch (pyLower task) = true) :
    classify_task task = .error ⟨400, "Task not recognized"⟩ ∧
    run_task hs task = .error ⟨400, "Task not recognized"⟩ := by
  have hcl : classify_task task = .error ⟨400, "Task not recognized"⟩ :=
    classifyLower_of_noneMatch (pyLower task) h
  refine ⟨hcl, ?_⟩
  unfold run_task
  rw [hcl]

/-- C5, witnessed at a text matching no rule. -/
theorem C5_witness :
    noneMatch (pyLower "hello there") = true ∧
    run_task allOkHandlers "hello there" =
      .error ⟨400, "Task not recognized"⟩ :=
  ⟨by decide,
   (C5_unmatched_400 allOkHandlers "hello there" (by decide)).2⟩

/-- C6: the dispatch table is total over the classifier's range — any
category `classify_task` returns is a key of `task_mapping`, so the
orchestrator's lookup succeeds and the `KeyError` branch is
unreachable. -/
theorem C6_dispatch_total (hs : Handlers) (task c : String)
    (h : classify_task task = .ok c) :
    ((task_mapping hs).lookup c).isSome = true := by
  have hmem : c ∈ mappingKeys := classifyLower_ok_mem (pyLower task) c h
  fin_cases hmem <;> rfl

/-- C6, witnessed at the category returned for "api". -/
theorem C6_witness :
    classify_task "api" = .ok "B3" ∧
    ((task_mapping allOkHandlers).lookup "B3").isSome = true :=
  ⟨by decide, C6_dispatch_total allOkHandlers "api" "B3" (by decide)⟩

/-- C7 counterexample: the A1 handler of `handlers404` fails by raising
`HTTPException(404, "nope")`, yet `/run` answers 404 — not the 500 the
claim requires for every handler failure. -/
theorem C7_counterexample :
    run_task handlers404 "datagen.py" = .error ⟨404, "nope"⟩ ∧
    RunResult.error ⟨404, "nope"⟩ ≠ RunResult.error ⟨500, "nope"⟩ := by
  decide

/-- C7 amended: when the task classifies, a handler that returns a
payload yields the success envelope with that payload unmodified, and a
handler that raises a non-`HTTPException` failure yields a 500 whose
detail is the failure's message verbatim (an `HTTPException` raised by
a handler is instead re-raised unchanged). -/
theorem C7_envelope_amended (hs : Handlers) (task c r m : String)
    (h : classify_task task = .ok c) :
    ((task_mapping hs).lookup c = some (.ok r) →
      run_task hs task = .success c r) ∧
    ((task_mapping hs).lookup c = some (.exn m) →
      run_task hs task = .error ⟨500, m⟩) := by
  constructor <;> intro hl <;> simp [run_task, h, hl]

/-- C7 amended, witnessed on an all-succeeding handler table. -/
theorem C7_amended_witness :
    classify_task "datagen.py" = .ok "A1" ∧
    run_task allOkHandlers "datagen.py" = .success "A1" "r1" :=
  ⟨by decide,
   (C7_envelope_amended allOkHandlers "datagen.py" "A1" "r1" "boom"
     (by decide)).1 (by decide)⟩

/-- C8: an `HTTPException` raised by the invoked handler is re-raised
unchanged — its status code and detail reach the client — while any
other handler exception is wrapped as a 500 whose detail is the
exception's message. -/
theorem C8_http_exc_passthrough (hs : Handlers) (task c m : String)
    (e : HTTPExc) (h : classify_task task = .ok c) :
    ((task_mapping hs).lookup c = some (.httpError e) →
      run_task hs task = .error e) ∧
    ((task_mapping hs).lookup c = some (.exn m) →
      run_task hs task = .error ⟨500, m⟩) := by
  constructor <;> intro hl <;> simp [run_task, h, hl]

/-- C8, witnessed: a handler-raised 404 surfaces as 404. -/
theorem C8_witness :
    classify_task "datagen.py" = .ok "A1" ∧
    run_task handlers404 "datagen.py" = .error ⟨404, "nope"⟩ :=
  ⟨by decide,
   (C8_http_exc_passthrough handlers404 "datagen.py" "A1" "boom"
     ⟨404, "nope"⟩ (by decide)).1 (by decide)⟩

/-- C9: a path that passes the sandbox guard but does not exist yields
the 404 "File not found" response, for every behaviour of the
underlying read (no read is attempted); and a path that fails the
guard yields the 400 sandbox response even when it does not exist, so
the existence check comes after the sandbox check. -/
theorem C9_not_found_404 (fs : FS) (cwd path : String)
    (hex : fs.path_exists path = false) :
    (sandbox_ok cwd path = true →
      read_file fs cwd path = .error ⟨404, "File not found"⟩) ∧
    (sandbox_ok cwd path = false →
      read_file fs cwd path = .error ⟨400, sandboxDetail⟩) := by
  constructor <;> intro hsb <;> simp [read_file, hsb, hex]

/-- C9, witnessed on a missing in-sandbox path and a missing
out-of-sandbox path. -/
theorem C9_witness :
    emptyFS.path_exists "/data/missing.txt" = false ∧
    read_file emptyFS "/app" "/data/missing.txt" =
      .error ⟨404, "File not found"⟩ ∧
    read_file emptyFS "/app" "/etc/passwd" = .error ⟨400, sandboxDetail⟩ :=
  ⟨rfl,
   (C9_not_found_404 emptyFS "/app" "/data/missing.txt" rfl).1 (by decide),
   (C9_not_found_404 emptyFS "/app" "/etc/passwd" rfl).2 (by decide)⟩

/-- C10: a path inside the sandbox that exists is read whole and its
stored content is returned unmodified by the endpoint. -/
theorem C10_read_roundtrip (fs : FS) (cwd path content : String)
    (hsb : sandbox_ok cwd path = true)
    (hex : fs.path_exists path = true)
    (hrd : fs.read_text path = .ok content) :
    read_file fs cwd path = .ok content := by
  simp [read_file, hsb, hex, hrd]

/-- C10, witnessed on a one-file filesystem. -/
theorem C10_witness :
    oneFileFS.read_text "/data/notes.txt" = .ok "stored bytes" ∧
    read_file oneFileFS "/app" "/data/notes.txt" = .ok "stored bytes" :=
  ⟨rfl,
   C10_read_roundtrip oneFileFS "/app" "/data/notes.txt" "stored bytes"
     (by decide) rfl rfl⟩
